import Mathlib

/-!
# Verification of the System Performance Analyzer's anomaly-detection core

A shallow embedding, in Lean 4, of the statistical anomaly-detection and
root-cause-reconstruction engine of the repository (src/src/analyzer.py,
src/src/root_cause.py), together with theorems settling the specification's
claims about it.

Embedding conventions:
* Python floats are modelled as exact rationals (`ℚ`).  All arithmetic the
  claims quantify over (z-scores, growth extrapolation, change fractions)
  is made of field operations and comparisons, which ℚ models exactly.
* `numpy.std` (a floating-point square root) is not exactly representable
  over ℚ; it is abstracted as a function parameter `npStd : List ℚ → ℚ`
  universally quantified in every theorem that touches it.  The flooring of
  the resulting value to 0.01 — the code under verification — is embedded
  concretely.
* Text rendered from floats (`f"{x:.1f}"`, `format_bytes`, `str.title()`)
  is likewise abstracted as a record `Fmt` of formatting collaborators; the
  surrounding string composition is embedded concretely.  No claim inspects
  the formatted numbers themselves.
* Python `dict.get` on heterogeneous records becomes `Option` fields; a
  field that is absent or `None` is `none` (both are treated identically by
  every code path the claims cover: `.get(k, 0) or 0` collapses both, and
  missing/null values travel the same skip branches).
* Fallible collaborator calls (the SQLite-backed store) are modelled as
  `Except String` valued functions; a caught Python exception becomes a
  handled `.error` branch.
-/

namespace SysPerf

/-! ## Data model (spec §3, analyzer.py / root_cause.py record shapes) -/

/-- A learned baseline entry: mean/std_dev/min/max/sample-count for one
(metric, context) pair (analyzer.py `stats` dict / baselines cache values). -/
structure BaselineStats where
  mean : ℚ
  std_dev : ℚ
  min : ℚ
  max : ℚ
  count : ℕ
deriving DecidableEq

/-- The configured z-score cutoffs (analyzer.py `self.severity_levels`,
defaults 1.5/2.0/2.5/3.0); the `.get(tier, default)` fallbacks have already
been applied, so each field is the effective cutoff. -/
structure SeverityLevels where
  low : ℚ
  medium : ℚ
  high : ℚ
  critical : ℚ
deriving DecidableEq

/-- The default cutoffs from analyzer.py line 33-35. -/
def defaultSeverityLevels : SeverityLevels :=
  { low := 3/2, medium := 2, high := 5/2, critical := 3 }

/-- Floating-point text formatting, abstracted: `float1` is `f"{x:.1f}"`,
`float0` is `f"{x:.0f}"`, `bytesFmt` is `utils.format_bytes`, `titleize` is
`str.replace('_',' ').title()`.  These render floats to text and are not
exactly representable over ℚ; no claim depends on their output. -/
structure Fmt where
  float1 : ℚ → String
  float0 : ℚ → String
  bytesFmt : ℚ → String
  titleize : String → String

/-- A concrete (trivial) formatting instance, used to instantiate witnesses. -/
def fmt0 : Fmt :=
  { float1 := fun _ => "", float0 := fun _ => "", bytesFmt := fun _ => "",
    titleize := fun s => s }

/-- One process record of a snapshot (collector.py `proc_data` dict as
consumed by root_cause.py).  `none` = the field is absent or null. -/
structure Proc where
  pid : Option ℤ
  ppid : Option ℤ
  name : Option String
  cpu_percent : Option ℚ
  memory_rss : Option ℚ
  io_read_bytes : Option ℚ
  io_write_bytes : Option ℚ
  io_read_count : Option ℚ
  io_write_count : Option ℚ
deriving DecidableEq

/-- One entry of a reconstructed timeline (root_cause.py lines 97-100). -/
structure TimelinePoint where
  timestamp : Option ℚ
  value : ℚ
deriving DecidableEq

/-- One ranked process-contribution record (root_cause.py `contributor`
dict, lines 144-152).  `display` is `none` when the sort key is neither
recognized branch (unreachable from `sortKeyFor`). -/
structure Contributor where
  pid : Option ℤ
  name : String
  current_value : ℚ
  previous_value : ℚ
  delta : ℚ
  is_new_process : Bool
  metric : String
  display : Option String
deriving DecidableEq

/-- One node of the reconstructed process ancestry chain
(root_cause.py lines 193-198). -/
structure TreeNode where
  pid : ℤ
  name : String
  cpu_percent : ℚ
  memory_rss : ℚ
deriving DecidableEq

/-- One ranked I/O consumer (root_cause.py lines 228-236). -/
structure IoProcEntry where
  pid : Option ℤ
  name : Option String
  io_read_bytes : ℚ
  io_write_bytes : ℚ
  io_read_count : ℚ
  io_write_count : ℚ
  totalIoBytes : ℚ
deriving DecidableEq

/-- One classified I/O pattern (root_cause.py lines 251-270). -/
structure IoPattern where
  pid : Option ℤ
  name : Option String
  avg_read_size : ℚ
  classification : String
  likely_issue : Option String
deriving DecidableEq

/-- The `io_analysis` value (root_cause.py lines 216-219). -/
structure IoReport where
  top_io_processes : List IoProcEntry
  patterns : List IoPattern
deriving DecidableEq

/-- The root-cause record attached to an anomaly (root_cause.py lines
29-35). -/
structure RootCause where
  timeline : Option (List TimelinePoint)
  top_contributors : List Contributor
  process_tree : Option (List TreeNode)
  io_analysis : Option IoReport
  summary : String
deriving DecidableEq

/-- An anomaly record (analyzer.py lines 181-192 / 316-327 / 360-371). -/
structure Anomaly where
  timestamp : ℚ
  anomaly_type : String
  severity : String
  metric_name : Option String
  metric_value : ℚ
  baseline_mean : ℚ
  baseline_stddev : ℚ
  z_score : ℚ
  description : String
  root_cause : Option RootCause
deriving DecidableEq

/-! ## Severity classification and the z-score path (analyzer.py 157-222) -/

/-- Python's `abs()` on a float, written as the sign test it performs. -/
def pyAbs (q : ℚ) : ℚ := if q < 0 then -q else q

/-- `Analyzer._classify_severity` (analyzer.py lines 197-213): map an
absolute z-score to a severity string by checking the configured cutoffs
from critical downwards. -/
def classifySeverity (L : SeverityLevels) (absZ : ℚ) : String :=
  if absZ ≥ L.critical then "critical"
  else if absZ ≥ L.high then "high"
  else if absZ ≥ L.medium then "medium"
  else if absZ ≥ L.low then "low"
  else "normal"

/-- `Analyzer._get_anomaly_type` (analyzer.py lines 215-222): the
direction-aware anomaly-type mapping, keyed by the sign of the z-score. -/
def getAnomalyType (metricName : String) (z : ℚ) : String :=
  if metricName = "cpu_percent" then (if z > 0 then "cpu_spike" else "cpu_drop")
  else if metricName = "memory_percent" then (if z > 0 then "memory_pressure" else "memory_drop")
  else if metricName = "swap_percent" then (if z > 0 then "swap_pressure" else "swap_drop")
  else "unknown_anomaly"

/-- `Analyzer._check_zscore` (analyzer.py lines 157-195): compute the
z-score against the baseline, classify severity, and return an anomaly
record unless the severity is "normal" or "low". -/
def checkZscore (fmt : Fmt) (L : SeverityLevels) (ts : ℚ) (metricName : String)
    (value : ℚ) (b : BaselineStats) (ctx : String) : Option Anomaly :=
  let mean := b.mean
  let std_dev := b.std_dev
  let z_score := (value - mean) / std_dev
  let severity := classifySeverity L (pyAbs z_score)
  if severity = "normal" ∨ severity = "low" then none
  else
    let anomaly_type := getAnomalyType metricName z_score
    let description :=
      fmt.titleize metricName ++ " at " ++ fmt.float1 value ++ "% is " ++
      fmt.float1 (pyAbs z_score) ++ " std devs " ++
      (if z_score > 0 then "above" else "below") ++ " normal for " ++
      (ctx.replace "_" " ") ++ " (typical: " ++ fmt.float1 mean ++ "% ± " ++
      fmt.float1 std_dev ++ "%)"
    some { timestamp := ts, anomaly_type := anomaly_type, severity := severity,
           metric_name := some metricName, metric_value := value,
           baseline_mean := mean, baseline_stddev := std_dev,
           z_score := z_score, description := description, root_cause := none }

/-- The four severity tiers in ascending rank order (spec §3). -/
def severityTiers : List String := ["low", "medium", "high", "critical"]

/-- Rank of a severity tier ("highest tier" in the spec's words). -/
def tierRank : String → ℕ
  | "low" => 1
  | "medium" => 2
  | "high" => 3
  | "critical" => 4
  | _ => 0

/-- The configured cutoff of a severity tier. -/
def tierCutoff (L : SeverityLevels) : String → ℚ
  | "low" => L.low
  | "medium" => L.medium
  | "high" => L.high
  | "critical" => L.critical
  | _ => 0

/-- `pyAbs` agrees with the mathematical absolute value. -/
theorem pyAbs_eq_abs (q : ℚ) : pyAbs q = |q| := by
  unfold pyAbs
  split_ifs with h
  · exact (abs_of_neg h).symm
  · exact (abs_of_nonneg (not_lt.mp h)).symm

/-- C1: for every evaluated sample value on a monitored metric with an
available baseline, the z-score equals `(value - mean) / std_dev`; severity
is the highest tier whose configured cutoff is ≤ |z| (inclusive at the
cutoff) and "normal" below the low cutoff; an anomaly record is produced
from the z-score path iff the severity is medium, high or critical — never
for "normal" or "low". -/
theorem checkZscore_spec (fmt : Fmt) (L : SeverityLevels) (ts : ℚ)
    (metricName : String) (value : ℚ) (b : BaselineStats) (ctx : String)
    (z : ℚ) (s : String)
    (hstd : 1/100 ≤ b.std_dev)
    (hz : z = (value - b.mean) / b.std_dev)
    (hs : s = classifySeverity L |z|)
    (h1 : L.low ≤ L.medium) (h2 : L.medium ≤ L.high) (h3 : L.high ≤ L.critical) :
    (∀ a, checkZscore fmt L ts metricName value b ctx = some a →
        a.z_score = z ∧ a.severity = s) ∧
    ((checkZscore fmt L ts metricName value b ctx).isSome ↔
        (s = "medium" ∨ s = "high" ∨ s = "critical")) ∧
    (s ≠ "normal" →
        s ∈ severityTiers ∧ tierCutoff L s ≤ |z| ∧
        ∀ t ∈ severityTiers, tierCutoff L t ≤ |z| → tierRank t ≤ tierRank s) ∧
    (s = "normal" ↔ |z| < L.low) := by
  subst hz hs
  have habs := pyAbs_eq_abs ((value - b.mean) / b.std_dev)
  simp only [checkZscore, classifySeverity, habs]
  set az := |(value - b.mean) / b.std_dev| with haz
  have hmem : ∀ t : String, t ∈ severityTiers →
      t = "low" ∨ t = "medium" ∨ t = "high" ∨ t = "critical" := by
    intro t ht
    simpa [severityTiers] using ht
  by_cases hc : az ≥ L.critical
  · simp only [if_pos hc]
    refine ⟨?_, by simp, fun _ => ⟨by simp [severityTiers], hc, ?_⟩, ?_⟩
    · intro a ha
      rw [if_neg (by simp)] at ha
      cases ha
      exact ⟨rfl, rfl⟩
    · intro t ht hcut
      rcases hmem t ht with rfl | rfl | rfl | rfl <;> norm_num [tierRank]
    · constructor
      · intro h; exact absurd h (by simp)
      · intro h; exfalso; linarith
  · by_cases hh : az ≥ L.high
    · simp only [if_neg hc, if_pos hh]
      refine ⟨?_, by simp, fun _ => ⟨by simp [severityTiers], hh, ?_⟩, ?_⟩
      · intro a ha
        rw [if_neg (by simp)] at ha
        cases ha
        exact ⟨rfl, rfl⟩
      · intro t ht hcut
        rcases hmem t ht with rfl | rfl | rfl | rfl
        · norm_num [tierRank]
        · norm_num [tierRank]
        · norm_num [tierRank]
        · exact absurd hcut (by simpa [tierCutoff] using not_le.mpr (lt_of_not_ge hc))
      · constructor
        · intro h; exact absurd h (by simp)
        · intro h; exfalso; linarith
    · by_cases hm : az ≥ L.medium
      · simp only [if_neg hc, if_neg hh, if_pos hm]
        refine ⟨?_, by simp, fun _ => ⟨by simp [severityTiers], hm, ?_⟩, ?_⟩
        · intro a ha
          rw [if_neg (by simp)] at ha
          cases ha
          exact ⟨rfl, rfl⟩
        · intro t ht hcut
          rcases hmem t ht with rfl | rfl | rfl | rfl
          · norm_num [tierRank]
          · norm_num [tierRank]
          · exact absurd hcut (by simpa [tierCutoff] using not_le.mpr (lt_of_not_ge hh))
          · exact absurd hcut (by simpa [tierCutoff] using not_le.mpr (lt_of_not_ge hc))
        · constructor
          · intro h; exact absurd h (by simp)
          · intro h; exfalso; linarith
      · by_cases hl : az ≥ L.low
        · simp only [if_neg hc, if_neg hh, if_neg hm, if_pos hl]
          refine ⟨by simp, by simp, fun _ => ⟨by simp [severityTiers], hl, ?_⟩, ?_⟩
          · intro t ht hcut
            rcases hmem t ht with rfl | rfl | rfl | rfl
            · norm_num [tierRank]
            · exact absurd hcut (by simpa [tierCutoff] using not_le.mpr (lt_of_not_ge hm))
            · exact absurd hcut (by simpa [tierCutoff] using not_le.mpr (lt_of_not_ge hh))
            · exact absurd hcut (by simpa [tierCutoff] using not_le.mpr (lt_of_not_ge hc))
          · constructor
            · intro h; exact absurd h (by simp)
            · intro h; exfalso; linarith
        · simp only [if_neg hc, if_neg hh, if_neg hm, if_neg hl]
          exact ⟨by simp, by simp, fun h => absurd rfl h, by
            simpa using lt_of_not_ge hl⟩

/-! ## Trend detection (analyzer.py 226-373) -/

/-- Python `int()` truncation toward zero, on an exact rational. -/
def pyTrunc (q : ℚ) : ℤ := q.num.tdiv q.den

/-- The bucket index assigned to one sample timestamp by
`_detect_memory_leak` (analyzer.py lines 275-278): clamp the age-derived
index to 11 and reverse so index 0 is the oldest ten-minute slice. -/
def bucketIndex (now ts : ℚ) : ℤ :=
  let age := now - ts
  let idx := min (12 - 1 : ℤ) (pyTrunc (age / 600))
  12 - 1 - idx

/-- `numpy.mean`, exact over ℚ. -/
def listMean (l : List ℚ) : ℚ := l.sum / l.length

/-- The values landing in bucket `i` (analyzer.py lines 273-280; the
`0 <= bucket_idx < bucket_count` guard is the equality with `i ∈ [0,12)`). -/
def memBucket (now : ℚ) (hist : List (ℚ × ℚ)) (i : ℕ) : List ℚ :=
  hist.filterMap (fun p => if bucketIndex now p.1 = (i : ℤ) then some p.2 else none)

/-- The per-bucket averages of the non-empty buckets, oldest bucket first
(analyzer.py lines 282-286). -/
def bucketAverages (now : ℚ) (hist : List (ℚ × ℚ)) : List ℚ :=
  (List.range 12).filterMap (fun i =>
    let b := memBucket now hist i
    if b.isEmpty then none else some (listMean b))

/-- Count of adjacent increasing pairs of the averages
(analyzer.py lines 291-295). -/
def countIncreases (l : List ℚ) : ℕ :=
  (l.zip l.tail).countP (fun p => decide (p.1 < p.2))

/-- `Analyzer._detect_memory_leak` (analyzer.py lines 261-329).  `now` is
the wall clock captured at line 270, `ts` the sample timestamp passed in,
`hist` the pruned memory-used buffer. -/
def detectMemoryLeak (fmt : Fmt) (now ts : ℚ) (hist : List (ℚ × ℚ)) : Option Anomaly :=
  if hist.length < 60 then none
  else
    let averages := bucketAverages now hist
    if averages.length < 6 then none
    else
      let growth_count := countIncreases averages
      let total_comparisons := averages.length - 1
      if total_comparisons < 5 then none
      else
        let growthFrac : ℚ := (growth_count : ℚ) / (total_comparisons : ℚ)
        if growthFrac ≥ 3/4 then
          let growth_bytes := averages.getLastD 0 - averages.headD 0
          let growth_per_hour := growth_bytes * (3600 / ((averages.length : ℚ) * 600))
          let growth_mb_per_hour := growth_per_hour / (1024 * 1024)
          if growth_mb_per_hour > 50 then
            some { timestamp := ts, anomaly_type := "memory_leak",
                   severity := if growth_mb_per_hour > 100 then "high" else "medium",
                   metric_name := some "memory_used",
                   metric_value := averages.getLastD 0,
                   baseline_mean := averages.headD 0,
                   baseline_stddev := 0, z_score := 0,
                   description := "Potential memory leak detected: memory growing at " ++
                     fmt.float0 growth_mb_per_hour ++ " MB/hour over the last " ++
                     toString (averages.length * 10) ++ " minutes (" ++
                     toString growth_count ++ "/" ++ toString total_comparisons ++
                     " intervals show growth)",
                   root_cause := none }
          else none
        else none

/-- Count of consecutive-sample swap deltas exceeding 100 MB
(analyzer.py lines 339-345). -/
def countLargeSwapChanges (hist : List (ℚ × ℚ)) : ℕ :=
  let vals := hist.map Prod.snd
  (vals.zip vals.tail).countP (fun p => decide (100 * 1024 * 1024 < pyAbs (p.2 - p.1)))

/-- `Analyzer._detect_swap_thrashing` (analyzer.py lines 331-373). -/
def detectSwapThrashing (ts : ℚ) (hist : List (ℚ × ℚ)) : Option Anomaly :=
  if hist.length < 20 then none
  else
    let swap_changes := countLargeSwapChanges hist
    let total_samples := hist.length - 1
    if total_samples < 10 then none
    else
      let changeFrac : ℚ := (swap_changes : ℚ) / (total_samples : ℚ)
      if changeFrac > 3/20 then
        some { timestamp := ts, anomaly_type := "swap_thrashing",
               severity := "critical", metric_name := some "swap_used",
               metric_value := (hist.getLastD (0, 0)).2,
               baseline_mean := 0, baseline_stddev := 0, z_score := 0,
               description := "Swap thrashing detected: " ++ toString swap_changes ++
                 " large swap changes (>100 MB) in " ++ toString total_samples ++
                 " samples over the last 30 minutes. System performance severely degraded.",
               root_cause := none }
      else none

/-! ## Baseline store (analyzer.py 27-126, storage.py `baselines` table)

The store's mutable state — the SQLite `baselines` table, the in-memory
cache and the rate-limit clock — is modelled explicitly, and
`update_baselines` / `_load_baselines_from_db` / `get_baseline` become
state transitions.  `numpy.std` is the abstract parameter `npStd`;
`numpy.mean/min/max` are exact over ℚ. -/

/-- The metrics monitored for anomalies (analyzer.py lines 21-25). -/
def monitoredMetrics : List String := ["cpu_percent", "memory_percent", "swap_percent"]

/-- The contexts refreshed by `update_baselines` (analyzer.py lines 82-85). -/
def baselineContexts : List String :=
  ["weekday_morning", "weekday_afternoon", "weekday_evening",
   "weekday_night", "weekend_day", "weekend_night"]

/-- The (metric, context) pairs visited by the nested refresh loops
(analyzer.py lines 88-89), metric outermost. -/
def refreshPairs : List (String × String) :=
  (monitoredMetrics.map (fun (m : String) =>
    baselineContexts.map (fun (c : String) => (m, c)))).flatten

/-- `numpy.min` of a value list (0 on the empty list, unreachable: the
caller guards length ≥ 10). -/
def listMinD : List ℚ → ℚ
  | [] => 0
  | x :: xs => xs.foldl min x

/-- `numpy.max` of a value list (0 on the empty list, unreachable). -/
def listMaxD : List ℚ → ℚ
  | [] => 0
  | x :: xs => xs.foldl max x

/-- The stats dict computed at analyzer.py lines 97-108 for one (metric,
context) pair: mean/std/min/max/count of the historical values, with
std_dev floored to 0.01 (lines 106-108).  `npStd` abstracts `numpy.std`. -/
def refreshedStats (npStd : List ℚ → ℚ) (values : List ℚ) : BaselineStats :=
  let stats : BaselineStats :=
    { mean := listMean values, std_dev := npStd values,
      min := listMinD values, max := listMaxD values, count := values.length }
  if stats.std_dev < 1/100 then { stats with std_dev := 1/100 } else stats

/-- The baseline store's state: the persisted `baselines` table rows, the
in-memory cache (analyzer.py `self._baselines_cache`), and the rate-limit
clock (`self._last_baseline_update`, seconds). -/
structure SysState where
  db : String × String → Option BaselineStats
  cache : String × String → Option BaselineStats
  lastUpdate : Option ℚ

/-- One iteration of the refresh loop body (analyzer.py lines 90-113):
skip the pair when fewer than 10 values exist, otherwise write the floored
stats to the database (`db.update_baseline`) and the cache. -/
def refreshPairStep (npStd : List ℚ → ℚ) (history : String → String → List ℚ)
    (s : SysState) (p : String × String) : SysState :=
  let values := history p.1 p.2
  if values.length < 10 then s
  else
    let stats := refreshedStats npStd values
    { s with db := fun k => if k = p then some stats else s.db k,
             cache := fun k => if k = p then some stats else s.cache k }

/-- The internal rate-limit test (analyzer.py lines 78-80): an unforced
call within `self._baseline_update_interval` (1 hour) of the last update
returns immediately. -/
def rateLimited (lastUpdate : Option ℚ) (now : ℚ) : Bool :=
  match lastUpdate with
  | some t => decide (now - t < 3600)
  | none => false

/-- `Analyzer.update_baselines` (analyzer.py lines 72-120). -/
def updateBaselines (npStd : List ℚ → ℚ) (force : Bool) (now : ℚ)
    (history : String → String → List ℚ) (s : SysState) : SysState :=
  if !force && rateLimited s.lastUpdate now then s
  else
    let s2 := refreshPairs.foldl (refreshPairStep npStd history) s
    { s2 with lastUpdate := some now }

/-- `Analyzer._load_baselines_from_db` (analyzer.py lines 53-68): copy
every persisted baseline row into the cache, key by key, leaving cache
keys the database does not hold untouched.  No flooring happens here. -/
def loadBaselinesFromDb (s : SysState) : SysState :=
  { s with cache := fun k => match s.db k with
      | some b => some b
      | none => s.cache k }

/-- `Analyzer.get_baseline` (analyzer.py lines 122-126): a pure cache
lookup. -/
def getBaseline (s : SysState) (metric ctx : String) : Option BaselineStats :=
  s.cache (metric, ctx)

/-- The cache after one refresh-loop iteration, characterized per key. -/
theorem refreshPairStep_cache (npStd : List ℚ → ℚ)
    (history : String → String → List ℚ) (s : SysState) (p k : String × String) :
    (refreshPairStep npStd history s p).cache k =
      if k = p ∧ 10 ≤ (history p.1 p.2).length
      then some (refreshedStats npStd (history p.1 p.2)) else s.cache k := by
  unfold refreshPairStep
  by_cases hlen : (history p.1 p.2).length < 10
  · rw [if_pos hlen, if_neg (fun h => by omega)]
  · rw [if_neg hlen]
    simp only
    by_cases hk : k = p
    · subst hk
      rw [if_pos rfl, if_pos ⟨rfl, by omega⟩]
    · rw [if_neg hk, if_neg (fun h => hk h.1)]

/-- The database after one refresh-loop iteration, characterized per key. -/
theorem refreshPairStep_db (npStd : List ℚ → ℚ)
    (history : String → String → List ℚ) (s : SysState) (p k : String × String) :
    (refreshPairStep npStd history s p).db k =
      if k = p ∧ 10 ≤ (history p.1 p.2).length
      then some (refreshedStats npStd (history p.1 p.2)) else s.db k := by
  unfold refreshPairStep
  by_cases hlen : (history p.1 p.2).length < 10
  · rw [if_pos hlen, if_neg (fun h => by omega)]
  · rw [if_neg hlen]
    simp only
    by_cases hk : k = p
    · subst hk
      rw [if_pos rfl, if_pos ⟨rfl, by omega⟩]
    · rw [if_neg hk, if_neg (fun h => hk h.1)]

/-- The refresh-loop iteration never touches the rate-limit clock. -/
theorem refreshPairStep_lastUpdate (npStd : List ℚ → ℚ)
    (history : String → String → List ℚ) (s : SysState) (p : String × String) :
    (refreshPairStep npStd history s p).lastUpdate = s.lastUpdate := by
  simp only [refreshPairStep]
  split_ifs <;> rfl

/-- The whole refresh loop, characterized per key: a pair in the visited
list with at least 10 historical values is overwritten with its freshly
computed floored stats; every other key keeps its previous entry. -/
theorem refreshFold_char (npStd : List ℚ → ℚ)
    (history : String → String → List ℚ) :
    ∀ (ps : List (String × String)) (s : SysState) (k : String × String),
      ((ps.foldl (refreshPairStep npStd history) s).cache k =
        if k ∈ ps ∧ 10 ≤ (history k.1 k.2).length
        then some (refreshedStats npStd (history k.1 k.2)) else s.cache k) ∧
      ((ps.foldl (refreshPairStep npStd history) s).db k =
        if k ∈ ps ∧ 10 ≤ (history k.1 k.2).length
        then some (refreshedStats npStd (history k.1 k.2)) else s.db k) ∧
      (ps.foldl (refreshPairStep npStd history) s).lastUpdate = s.lastUpdate := by
  intro ps
  induction ps with
  | nil =>
    intro s k
    refine ⟨?_, ?_, rfl⟩ <;> rw [if_neg (fun h => by simp at h)] <;> rfl
  | cons p ps ih =>
    intro s k
    simp only [List.foldl_cons]
    obtain ⟨ihc, ihd, ihl⟩ := ih (refreshPairStep npStd history s p) k
    refine ⟨?_, ?_, ?_⟩
    · rw [ihc, refreshPairStep_cache]
      by_cases h1 : k ∈ ps ∧ 10 ≤ (history k.1 k.2).length
      · rw [if_pos h1, if_pos ⟨List.mem_cons_of_mem p h1.1, h1.2⟩]
      · rw [if_neg h1]
        by_cases h2 : k = p ∧ 10 ≤ (history p.1 p.2).length
        · obtain ⟨rfl, hlen⟩ := h2
          rw [if_pos ⟨rfl, hlen⟩, if_pos ⟨List.mem_cons_self k ps, hlen⟩]
        · rw [if_neg h2, if_neg ?_]
          rintro ⟨hmem, hlen⟩
          rcases List.mem_cons.mp hmem with rfl | hmem2
          · exact h2 ⟨rfl, hlen⟩
          · exact h1 ⟨hmem2, hlen⟩
    · rw [ihd, refreshPairStep_db]
      by_cases h1 : k ∈ ps ∧ 10 ≤ (history k.1 k.2).length
      · rw [if_pos h1, if_pos ⟨List.mem_cons_of_mem p h1.1, h1.2⟩]
      · rw [if_neg h1]
        by_cases h2 : k = p ∧ 10 ≤ (history p.1 p.2).length
        · obtain ⟨rfl, hlen⟩ := h2
          rw [if_pos ⟨rfl, hlen⟩, if_pos ⟨List.mem_cons_self k ps, hlen⟩]
        · rw [if_neg h2, if_neg ?_]
          rintro ⟨hmem, hlen⟩
          rcases List.mem_cons.mp hmem with rfl | hmem2
          · exact h2 ⟨rfl, hlen⟩
          · exact h1 ⟨hmem2, hlen⟩
    · rw [ihl, refreshPairStep_lastUpdate]

/-- A forced refresh, characterized per cache key. -/
theorem updateBaselines_forced_cache (npStd : List ℚ → ℚ)
    (history : String → String → List ℚ) (s : SysState) (now : ℚ)
    (k : String × String) :
    (updateBaselines npStd true now history s).cache k =
      if k ∈ refreshPairs ∧ 10 ≤ (history k.1 k.2).length
      then some (refreshedStats npStd (history k.1 k.2)) else s.cache k := by
  simp only [updateBaselines]
  rw [if_neg (by simp)]
  exact (refreshFold_char npStd history refreshPairs s k).1

/-- A forced refresh, characterized per database key. -/
theorem updateBaselines_forced_db (npStd : List ℚ → ℚ)
    (history : String → String → List ℚ) (s : SysState) (now : ℚ)
    (k : String × String) :
    (updateBaselines npStd true now history s).db k =
      if k ∈ refreshPairs ∧ 10 ≤ (history k.1 k.2).length
      then some (refreshedStats npStd (history k.1 k.2)) else s.db k := by
  simp only [updateBaselines]
  rw [if_neg (by simp)]
  exact (refreshFold_char npStd history refreshPairs s k).2.1

/-- Repeating a refresh with unchanged history does not change the cache,
whatever the force flag or clock of the second call. -/
theorem updateBaselines_repeat_cache (npStd : List ℚ → ℚ)
    (history : String → String → List ℚ) (s : SysState) (now now2 : ℚ)
    (force2 : Bool) (k : String × String) :
    (updateBaselines npStd force2 now2 history
        (updateBaselines npStd true now history s)).cache k =
      (updateBaselines npStd true now history s).cache k := by
  set s1 := updateBaselines npStd true now history s with hs1
  by_cases hrl : (!force2 && rateLimited s1.lastUpdate now2) = true
  · conv_lhs => simp only [updateBaselines]
    rw [if_pos hrl]
  · conv_lhs => simp only [updateBaselines]
    rw [if_neg hrl]
    rw [(refreshFold_char npStd history refreshPairs s1 k).1]
    by_cases hc : k ∈ refreshPairs ∧ 10 ≤ (history k.1 k.2).length
    · rw [if_pos hc, hs1, updateBaselines_forced_cache, if_pos hc]
    · rw [if_neg hc]

/-- C7: a baseline refresh leaves every (metric, context) pair with fewer
than 10 historical values untouched: the cached entry after the refresh is
identical to the one before, and a subsequent `get_baseline` still returns
it. -/
theorem updateBaselines_small_history (npStd : List ℚ → ℚ) (force : Bool)
    (now : ℚ) (history : String → String → List ℚ) (s : SysState)
    (metric ctx : String) (h : (history metric ctx).length < 10) :
    getBaseline (updateBaselines npStd force now history s) metric ctx =
      getBaseline s metric ctx := by
  simp only [updateBaselines, getBaseline]
  split_ifs with hrl
  · rfl
  · rw [(refreshFold_char npStd history refreshPairs s (metric, ctx)).1,
      if_neg ?_]
    rintro ⟨-, hlen⟩
    dsimp only at hlen
    omega

/-- A three-sample history: below the 10-value minimum for every pair. -/
def histSmall : String → String → List ℚ := fun _ _ => [1, 2, 3]

/-- A pre-existing baseline entry used by the C7 witness. -/
def baseOld : BaselineStats := ⟨5, 1, 0, 9, 12⟩

/-- A store state already holding `baseOld` for (cpu_percent, weekday_night). -/
def stateWithOld : SysState :=
  { db := fun _ => none,
    cache := fun k => if k = ("cpu_percent", "weekday_night") then some baseOld else none,
    lastUpdate := none }

/-- Witness for C7: a refresh over a three-sample history leaves the
pre-existing baseline in place. -/
theorem updateBaselines_small_history_witness :
    getBaseline (updateBaselines (fun _ => 0) false 0 histSmall stateWithOld)
        "cpu_percent" "weekday_night" = some baseOld ∧
    (histSmall "cpu_percent" "weekday_night").length < 10 := by
  refine ⟨?_, by simp [histSmall]⟩
  rw [updateBaselines_small_history (fun _ => 0) false 0 histSmall stateWithOld
      "cpu_percent" "weekday_night" (by simp [histSmall])]
  rfl

/-- The abstract numpy.std collaborator the counterexamples instantiate. -/
def npStdZero : List ℚ → ℚ := fun _ => 0

/-- A history giving ten 50s for (cpu_percent, weekday_morning), nothing
elsewhere. -/
def histFifty : String → String → List ℚ := fun m c =>
  if m = "cpu_percent" ∧ c = "weekday_morning" then List.replicate 10 50 else []

/-- The same shape with value 70: the "current history" of a later call. -/
def histSeventy : String → String → List ℚ := fun m c =>
  if m = "cpu_percent" ∧ c = "weekday_morning" then List.replicate 10 70 else []

/-- The store before any operation. -/
def emptyState : SysState :=
  { db := fun _ => none, cache := fun _ => none, lastUpdate := none }

/-- The store after one (forced) refresh at time 0 over `histFifty`. -/
def stateAfterFirst : SysState :=
  updateBaselines npStdZero true 0 histFifty emptyState

/-- The first refresh stamps the rate-limit clock. -/
theorem stateAfterFirst_lastUpdate : stateAfterFirst.lastUpdate = some 0 := by
  simp only [stateAfterFirst, updateBaselines]
  rw [if_neg (by simp)]

/-- C9 counterexample: an unforced refresh 30 minutes after the previous
one does **not** recompute from the current history — the rate limit is
enforced inside `update_baselines` itself.  The cached entry keeps the
stats of the old history (mean 50) even though the current history would
give mean 70, as the forced call shows. -/
theorem updateBaselines_not_always_recompute :
    updateBaselines npStdZero false 1800 histSeventy stateAfterFirst =
      stateAfterFirst ∧
    getBaseline stateAfterFirst "cpu_percent" "weekday_morning" =
      some (refreshedStats npStdZero (List.replicate 10 50)) ∧
    getBaseline (updateBaselines npStdZero true 1800 histSeventy stateAfterFirst)
        "cpu_percent" "weekday_morning" =
      some (refreshedStats npStdZero (List.replicate 10 70)) ∧
    refreshedStats npStdZero (List.replicate 10 50) ≠
      refreshedStats npStdZero (List.replicate 10 70) := by
  refine ⟨?_, ?_, ?_, ?_⟩
  · simp only [updateBaselines]
    rw [if_pos ?_]
    rw [stateAfterFirst_lastUpdate]
    simp only [rateLimited, Bool.not_false, Bool.true_and, decide_eq_true_eq]
    norm_num
  · simp only [stateAfterFirst, getBaseline]
    rw [updateBaselines_forced_cache]
    · rw [if_pos ⟨by decide, by simp [histFifty]⟩]
      rfl
  · simp only [getBaseline]
    rw [updateBaselines_forced_cache]
    rw [if_pos ⟨by decide, by simp [histSeventy]⟩]
    rfl
  · intro heq
    have hm := congrArg BaselineStats.mean heq
    simp only [refreshedStats, apply_ite BaselineStats.mean, ite_self] at hm
    simp only [listMean, List.sum_replicate, List.length_replicate,
      nsmul_eq_mul] at hm
    norm_num at hm

/-- C9 (amended): `update_baselines` is internally rate-limited — an
unforced call within one hour of the previous update returns without
recomputing; a forced call always recomputes every pair holding at least
10 current values and leaves the rest unchanged; and immediately repeating
a refresh with unchanged history leaves all baselines identical
(idempotence). -/
theorem updateBaselines_amended (npStd : List ℚ → ℚ)
    (history : String → String → List ℚ) (s : SysState)
    (now t now2 : ℚ) (force2 : Bool) :
    (s.lastUpdate = some t → now - t < 3600 →
      updateBaselines npStd false now history s = s) ∧
    (∀ metric ctx, (metric, ctx) ∈ refreshPairs →
      10 ≤ (history metric ctx).length →
      getBaseline (updateBaselines npStd true now history s) metric ctx =
        some (refreshedStats npStd (history metric ctx))) ∧
    (∀ metric ctx, (history metric ctx).length < 10 →
      getBaseline (updateBaselines npStd true now history s) metric ctx =
        getBaseline s metric ctx) ∧
    (∀ metric ctx,
      getBaseline (updateBaselines npStd force2 now2 history
          (updateBaselines npStd true now history s)) metric ctx =
        getBaseline (updateBaselines npStd true now history s) metric ctx) := by
  refine ⟨?_, ?_, ?_, ?_⟩
  · intro h1 h2
    simp only [updateBaselines]
    rw [if_pos ?_]
    rw [h1]
    simp only [rateLimited, Bool.not_false, Bool.true_and, decide_eq_true_eq]
    exact h2
  · intro m c hmem hlen
    simp only [getBaseline]
    rw [updateBaselines_forced_cache, if_pos ⟨hmem, hlen⟩]
  · intro m c hlen
    exact updateBaselines_small_history npStd true now history s m c hlen
  · intro m c
    simp only [getBaseline]
    exact updateBaselines_repeat_cache npStd history s now now2 force2 (m, c)

/-- Witness for C9's amended statement: the unforced call 30 minutes after
the first refresh is a no-op, by the theorem's rate-limit clause. -/
theorem updateBaselines_amended_witness :
    updateBaselines npStdZero false 1800 histSeventy stateAfterFirst =
      stateAfterFirst ∧ (1800 : ℚ) - 0 < 3600 := by
  refine ⟨?_, by norm_num⟩
  exact (updateBaselines_amended npStdZero histSeventy stateAfterFirst
      1800 0 0 false).1 stateAfterFirst_lastUpdate (by norm_num)

/-! ## The store as a transition system (C2) -/

/-- The operations the baseline store exposes (spec §4.1): the initial
load from the database, a refresh over some history with some numpy.std
behavior, and a lookup. -/
inductive StoreOp where
  | load : StoreOp
  | refresh (npStd : List ℚ → ℚ) (force : Bool) (now : ℚ)
      (history : String → String → List ℚ) : StoreOp
  | lookup (metric ctx : String) : StoreOp

/-- One store operation as a state transition (a lookup reads the cache
without modifying anything). -/
def applyOp (s : SysState) : StoreOp → SysState
  | StoreOp.load => loadBaselinesFromDb s
  | StoreOp.refresh npStd force now history =>
      updateBaselines npStd force now history s
  | StoreOp.lookup _ _ => s

/-- The store before any operation: an empty database (fresh schema from
`DatabaseManager.initialize`), empty cache, no previous update. -/
def initState : SysState :=
  { db := fun _ => none, cache := fun _ => none, lastUpdate := none }

/-- Run a sequence of store operations from the initial state. -/
def runOps (ops : List StoreOp) : SysState := ops.foldl applyOp initState

/-- The C2 invariant: every baseline entry held anywhere by the store has
std_dev at least 0.01. -/
def stdInv (s : SysState) : Prop :=
  (∀ k b, s.db k = some b → 1/100 ≤ b.std_dev) ∧
  (∀ k b, s.cache k = some b → 1/100 ≤ b.std_dev)

/-- The flooring at analyzer.py lines 106-108 guarantees the bound for
every freshly computed stats record, whatever numpy.std returned. -/
theorem refreshedStats_std (npStd : List ℚ → ℚ) (values : List ℚ) :
    1/100 ≤ (refreshedStats npStd values).std_dev := by
  simp only [refreshedStats]
  split_ifs with h
  · norm_num
  · exact not_lt.mp h

/-- Every store operation preserves the std_dev invariant. -/
theorem stdInv_applyOp (s : SysState) (op : StoreOp) (h : stdInv s) :
    stdInv (applyOp s op) := by
  obtain ⟨hdb, hcache⟩ := h
  cases op with
  | load =>
    refine ⟨hdb, ?_⟩
    intro k b hb
    simp only [applyOp, loadBaselinesFromDb] at hb
    cases hdbk : s.db k with
    | some b2 =>
      rw [hdbk] at hb
      exact hdb k b (hdbk.trans hb)
    | none =>
      rw [hdbk] at hb
      exact hcache k b hb
  | refresh npStd force now history =>
    simp only [applyOp, updateBaselines]
    split_ifs with hrl
    · exact ⟨hdb, hcache⟩
    · constructor
      · intro k b hb
        dsimp only at hb
        rw [(refreshFold_char npStd history refreshPairs s k).2.1] at hb
        split_ifs at hb with hc
        · cases hb
          exact refreshedStats_std npStd _
        · exact hdb k b hb
      · intro k b hb
        dsimp only at hb
        rw [(refreshFold_char npStd history refreshPairs s k).1] at hb
        split_ifs at hb with hc
        · cases hb
          exact refreshedStats_std npStd _
        · exact hcache k b hb
  | lookup m c => exact ⟨hdb, hcache⟩

/-- C2: after every sequence of store operations (initial load from the
database, refreshes, lookups) starting from the empty store, every cached
or persisted baseline entry has std_dev ≥ 0.01, so the z-score division
never uses a smaller divisor. -/
theorem baseline_std_dev_invariant (ops : List StoreOp) : stdInv (runOps ops) := by
  have hinit : stdInv initState :=
    ⟨fun k b hb => by simp [initState] at hb,
     fun k b hb => by simp [initState] at hb⟩
  have hall : ∀ (l : List StoreOp) (s : SysState), stdInv s →
      stdInv (l.foldl applyOp s) := by
    intro l
    induction l with
    | nil => intro s hs; exact hs
    | cons op ops ih =>
      intro s hs
      exact ih _ (stdInv_applyOp s op hs)
  exact hall ops initState hinit

/-- The operation sequence of the C2 witness: a forced refresh writing one
baseline, then a load. -/
def opsW : List StoreOp :=
  [StoreOp.refresh npStdZero true 0 histFifty, StoreOp.load]

/-- Witness for C2: after refresh-then-load the cache holds the computed
entry for (cpu_percent, weekday_morning), and the invariant theorem bounds
its std_dev. -/
theorem baseline_std_dev_invariant_witness :
    (runOps opsW).cache ("cpu_percent", "weekday_morning") =
      some (refreshedStats npStdZero (List.replicate 10 50)) ∧
    1/100 ≤ (refreshedStats npStdZero (List.replicate 10 50)).std_dev := by
  have hc : (runOps opsW).cache ("cpu_percent", "weekday_morning") =
      some (refreshedStats npStdZero (List.replicate 10 50)) := by
    simp only [runOps, opsW, List.foldl_cons, List.foldl_nil, applyOp,
      loadBaselinesFromDb]
    rw [updateBaselines_forced_db, if_pos ⟨by decide, by simp [histFifty]⟩]
    rfl
  exact ⟨hc, (baseline_std_dev_invariant opsW).2 _ _ hc⟩

/-- C3: the memory-leak detector emits an anomaly exactly when the buffer
holds ≥60 points, ≥6 non-empty ten-minute bucket averages (hence ≥5
adjacent comparisons) exist, the fraction of adjacent increases is ≥ 0.75
and the extrapolated growth exceeds 50 MB/hour; the emitted anomaly is a
`memory_leak` with z_score 0, baseline_mean the first bucket average,
metric_value the last, and severity "high" iff growth > 100 MB/hour. -/
theorem detectMemoryLeak_spec (fmt : Fmt) (now ts : ℚ) (hist : List (ℚ × ℚ))
    (averages : List ℚ) (havg : averages = bucketAverages now hist) :
    ((detectMemoryLeak fmt now ts hist).isSome ↔
      (60 ≤ hist.length ∧ 6 ≤ averages.length ∧ 5 ≤ averages.length - 1 ∧
       (countIncreases averages : ℚ) / ((averages.length - 1 : ℕ) : ℚ) ≥ 3/4 ∧
       (averages.getLastD 0 - averages.headD 0) *
         (3600 / ((averages.length : ℚ) * 600)) / (1024 * 1024) > 50)) ∧
    (∀ a, detectMemoryLeak fmt now ts hist = some a →
       a.anomaly_type = "memory_leak" ∧ a.z_score = 0 ∧ a.baseline_stddev = 0 ∧
       a.metric_name = some "memory_used" ∧
       a.baseline_mean = averages.headD 0 ∧ a.metric_value = averages.getLastD 0 ∧
       a.severity = (if (averages.getLastD 0 - averages.headD 0) *
            (3600 / ((averages.length : ℚ) * 600)) / (1024 * 1024) > 100
          then "high" else "medium")) := by
  subst havg
  simp only [detectMemoryLeak]
  by_cases h1 : hist.length < 60
  · rw [if_pos h1]
    refine ⟨?_, ?_⟩
    · simp only [Option.isSome_none, Bool.false_eq_true, false_iff]
      rintro ⟨h, -⟩
      omega
    · intro a ha
      exact absurd ha (by simp)
  · rw [if_neg h1]
    by_cases h2 : (bucketAverages now hist).length < 6
    · rw [if_pos h2]
      refine ⟨?_, ?_⟩
      · simp only [Option.isSome_none, Bool.false_eq_true, false_iff]
        rintro ⟨-, h, -⟩
        omega
      · intro a ha
        exact absurd ha (by simp)
    · rw [if_neg h2]
      by_cases h3 : (bucketAverages now hist).length - 1 < 5
      · rw [if_pos h3]
        refine ⟨?_, ?_⟩
        · simp only [Option.isSome_none, Bool.false_eq_true, false_iff]
          rintro ⟨-, h, -⟩
          omega
        · intro a ha
          exact absurd ha (by simp)
      · rw [if_neg h3]
        by_cases h4 : (countIncreases (bucketAverages now hist) : ℚ) /
            (((bucketAverages now hist).length - 1 : ℕ) : ℚ) ≥ 3/4
        · rw [if_pos h4]
          by_cases h5 : ((bucketAverages now hist).getLastD 0 -
                (bucketAverages now hist).headD 0) *
              (3600 / (((bucketAverages now hist).length : ℚ) * 600)) /
              (1024 * 1024) > 50
          · rw [if_pos h5]
            refine ⟨?_, ?_⟩
            · simp only [Option.isSome_some, true_iff]
              exact ⟨by omega, by omega, by omega, h4, h5⟩
            · intro a ha
              cases ha
              exact ⟨rfl, rfl, rfl, rfl, rfl, rfl, rfl⟩
          · rw [if_neg h5]
            refine ⟨?_, ?_⟩
            · simp only [Option.isSome_none, Bool.false_eq_true, false_iff]
              rintro ⟨-, -, -, -, hf⟩
              exact h5 hf
            · intro a ha
              exact absurd ha (by simp)
        · rw [if_neg h4]
          refine ⟨?_, ?_⟩
          · simp only [Option.isSome_none, Bool.false_eq_true, false_iff]
            rintro ⟨-, -, -, hf, -⟩
            exact h4 hf
          · intro a ha
            exact absurd ha (by simp)

/-- `filterMap` over a constant block keeps all copies or none. -/
theorem filterMapReplicate {α β : Type} (f : α → Option β) (n : ℕ) (a : α) :
    List.filterMap f (List.replicate n a) =
      (match f a with
       | some b => List.replicate n b
       | none => []) := by
  induction n with
  | zero => cases f a <;> simp
  | succ n ih =>
    rw [List.replicate_succ, List.filterMap_cons]
    cases hfa : f a with
    | none =>
      simp only [hfa] at ih ⊢
      exact ih
    | some b =>
      simp only [hfa] at ih ⊢
      rw [ih, List.replicate_succ]

/-- Sixty memory samples over an hour: ten per ten-minute slot, growing by
40 MB per slot, oldest first (timestamps are seconds; `now` is 7200). -/
def leakHist : List (ℚ × ℚ) :=
  List.replicate 10 ((3600 : ℚ), (0 : ℚ)) ++
  List.replicate 10 ((4200 : ℚ), (41943040 : ℚ)) ++
  List.replicate 10 ((4800 : ℚ), (83886080 : ℚ)) ++
  List.replicate 10 ((5400 : ℚ), (125829120 : ℚ)) ++
  List.replicate 10 ((6000 : ℚ), (167772160 : ℚ)) ++
  List.replicate 10 ((6600 : ℚ), (209715200 : ℚ))

/-- The bucket averages of `leakHist`: buckets 5-10 hold the six slot
values, oldest first. -/
theorem leakHist_averages :
    bucketAverages 7200 leakHist =
      [0, 41943040, 83886080, 125829120, 167772160, 209715200] := by
  have hb3600 : bucketIndex 7200 3600 = 5 := by
    have hq : ((7200 : ℚ) - 3600) / 600 = 6 := by norm_num
    simp only [bucketIndex, pyTrunc, hq, Rat.num_ofNat, Rat.den_ofNat]
    decide
  have hb4200 : bucketIndex 7200 4200 = 6 := by
    have hq : ((7200 : ℚ) - 4200) / 600 = 5 := by norm_num
    simp only [bucketIndex, pyTrunc, hq, Rat.num_ofNat, Rat.den_ofNat]
    decide
  have hb4800 : bucketIndex 7200 4800 = 7 := by
    have hq : ((7200 : ℚ) - 4800) / 600 = 4 := by norm_num
    simp only [bucketIndex, pyTrunc, hq, Rat.num_ofNat, Rat.den_ofNat]
    decide
  have hb5400 : bucketIndex 7200 5400 = 8 := by
    have hq : ((7200 : ℚ) - 5400) / 600 = 3 := by norm_num
    simp only [bucketIndex, pyTrunc, hq, Rat.num_ofNat, Rat.den_ofNat]
    decide
  have hb6000 : bucketIndex 7200 6000 = 9 := by
    have hq : ((7200 : ℚ) - 6000) / 600 = 2 := by norm_num
    simp only [bucketIndex, pyTrunc, hq, Rat.num_ofNat, Rat.den_ofNat]
    decide
  have hb6600 : bucketIndex 7200 6600 = 10 := by
    have hq : ((7200 : ℚ) - 6600) / 600 = 1 := by norm_num
    simp only [bucketIndex, pyTrunc, hq, Rat.num_one, Rat.den_one]
    decide
  have hmb : ∀ (i : ℕ), memBucket 7200 leakHist i =
      (if (5 : ℤ) = (i : ℤ) then List.replicate 10 (0 : ℚ) else []) ++
      (if (6 : ℤ) = (i : ℤ) then List.replicate 10 (41943040 : ℚ) else []) ++
      (if (7 : ℤ) = (i : ℤ) then List.replicate 10 (83886080 : ℚ) else []) ++
      (if (8 : ℤ) = (i : ℤ) then List.replicate 10 (125829120 : ℚ) else []) ++
      (if (9 : ℤ) = (i : ℤ) then List.replicate 10 (167772160 : ℚ) else []) ++
      (if (10 : ℤ) = (i : ℤ) then List.replicate 10 (209715200 : ℚ) else []) := by
    intro i
    simp only [memBucket, leakHist, List.filterMap_append, filterMapReplicate,
      hb3600, hb4200, hb4800, hb5400, hb6000, hb6600]
    by_cases h5 : (5 : ℤ) = (i : ℤ) <;>
      by_cases h6 : (6 : ℤ) = (i : ℤ) <;>
      by_cases h7 : (7 : ℤ) = (i : ℤ) <;>
      by_cases h8 : (8 : ℤ) = (i : ℤ) <;>
      by_cases h9 : (9 : ℤ) = (i : ℤ) <;>
      by_cases h10 : (10 : ℤ) = (i : ℤ) <;>
      simp [h5, h6, h7, h8, h9, h10]
  have hne : ∀ (v : ℚ), (List.replicate 10 v).isEmpty = false := fun _ => rfl
  have hlm : ∀ (v : ℚ), listMean (List.replicate 10 v) = v := by
    intro v
    simp only [listMean, List.sum_replicate, List.length_replicate, nsmul_eq_mul]
    rw [Nat.cast_ofNat]
    exact mul_div_cancel_left₀ v (by norm_num)
  have hrange : List.range 12 = [0, 1, 2, 3, 4, 5, 6, 7, 8, 9, 10, 11] := rfl
  simp only [bucketAverages, hrange, List.filterMap_cons, List.filterMap_nil, hmb]
  norm_num [hne, hlm]

/-- Witness for C3: on `leakHist` (200 MB growth across six buckets, so
200 MB/hour extrapolated) the detector fires with severity "high",
baseline_mean the first average and metric_value the last. -/
theorem detectMemoryLeak_spec_witness :
    (detectMemoryLeak fmt0 7200 7200 leakHist).isSome = true ∧
    (∀ a, detectMemoryLeak fmt0 7200 7200 leakHist = some a →
      a.severity = "high" ∧ a.baseline_mean = 0 ∧ a.metric_value = 209715200) := by
  have havg := leakHist_averages
  have h := detectMemoryLeak_spec fmt0 7200 7200 leakHist
      [0, 41943040, 83886080, 125829120, 167772160, 209715200] havg.symm
  have hcount : countIncreases
      [(0 : ℚ), 41943040, 83886080, 125829120, 167772160, 209715200] = 5 := by
    have hc1 : decide ((0 : ℚ) < 41943040) = true := by
      rw [decide_eq_true_eq]; norm_num
    have hc2 : decide ((41943040 : ℚ) < 83886080) = true := by
      rw [decide_eq_true_eq]; norm_num
    have hc3 : decide ((83886080 : ℚ) < 125829120) = true := by
      rw [decide_eq_true_eq]; norm_num
    have hc4 : decide ((125829120 : ℚ) < 167772160) = true := by
      rw [decide_eq_true_eq]; norm_num
    have hc5 : decide ((167772160 : ℚ) < 209715200) = true := by
      rw [decide_eq_true_eq]; norm_num
    simp only [countIncreases, List.zip, List.zipWith, List.tail,
      List.countP_cons, List.countP_nil, hc1, hc2, hc3, hc4, hc5, if_true]
  have hgrow : (([(0 : ℚ), 41943040, 83886080, 125829120, 167772160,
        209715200].getLastD 0 -
      [(0 : ℚ), 41943040, 83886080, 125829120, 167772160, 209715200].headD 0) *
        (3600 / ((([(0 : ℚ), 41943040, 83886080, 125829120, 167772160,
          209715200].length : ℕ) : ℚ) * 600)) / (1024 * 1024)) = 200 := by
    rw [show ([(0 : ℚ), 41943040, 83886080, 125829120, 167772160,
        209715200].getLastD 0) = 209715200 from rfl]
    rw [show ([(0 : ℚ), 41943040, 83886080, 125829120, 167772160,
        209715200].headD 0) = 0 from rfl]
    rw [show ([(0 : ℚ), 41943040, 83886080, 125829120, 167772160,
        209715200].length) = 6 from rfl]
    norm_num
  have hconds : 60 ≤ leakHist.length ∧
      6 ≤ ([(0 : ℚ), 41943040, 83886080, 125829120, 167772160,
        209715200] : List ℚ).length ∧
      5 ≤ ([(0 : ℚ), 41943040, 83886080, 125829120, 167772160,
        209715200] : List ℚ).length - 1 ∧
      (countIncreases [(0 : ℚ), 41943040, 83886080, 125829120, 167772160,
          209715200] : ℚ) /
        ((([(0 : ℚ), 41943040, 83886080, 125829120, 167772160,
          209715200] : List ℚ).length - 1 : ℕ) : ℚ) ≥ 3/4 ∧
      ([(0 : ℚ), 41943040, 83886080, 125829120, 167772160,
          209715200].getLastD 0 -
        [(0 : ℚ), 41943040, 83886080, 125829120, 167772160,
          209715200].headD 0) *
        (3600 / ((([(0 : ℚ), 41943040, 83886080, 125829120, 167772160,
          209715200] : List ℚ).length : ℚ) * 600)) / (1024 * 1024) > 50 := by
    refine ⟨by decide, by decide, by decide, ?_, ?_⟩
    · rw [hcount]
      norm_num
    · have h200 := hgrow
      rw [h200]
      norm_num
  refine ⟨h.1.mpr hconds, ?_⟩
  intro a ha
  obtain ⟨-, -, -, -, hbm, hmv, hsev⟩ := h.2 a ha
  refine ⟨?_, by rw [hbm]; rfl, by rw [hmv]; rfl⟩
  rw [hsev, if_pos ?_]
  rw [hgrow]
  norm_num

/-- C4: the swap-thrashing detector emits an anomaly exactly when the
buffer holds ≥20 points (hence ≥10 consecutive comparisons) and the
fraction of consecutive deltas exceeding 100 MB is strictly greater than
0.15; the emitted anomaly is always a critical `swap_thrashing` with
z_score 0 and baseline_mean 0. -/
theorem detectSwapThrashing_spec (ts : ℚ) (hist : List (ℚ × ℚ)) :
    ((detectSwapThrashing ts hist).isSome ↔
      (20 ≤ hist.length ∧ 10 ≤ hist.length - 1 ∧
       (countLargeSwapChanges hist : ℚ) / ((hist.length - 1 : ℕ) : ℚ) > 3/20)) ∧
    (∀ a, detectSwapThrashing ts hist = some a →
       a.anomaly_type = "swap_thrashing" ∧ a.severity = "critical" ∧
       a.z_score = 0 ∧ a.baseline_mean = 0 ∧ a.baseline_stddev = 0 ∧
       a.metric_name = some "swap_used" ∧
       a.metric_value = (hist.getLastD (0, 0)).2) := by
  simp only [detectSwapThrashing]
  by_cases h1 : hist.length < 20
  · rw [if_pos h1]
    refine ⟨?_, ?_⟩
    · simp only [Option.isSome_none, Bool.false_eq_true, false_iff]
      rintro ⟨h, -⟩
      omega
    · intro a ha
      exact absurd ha (by simp)
  · rw [if_neg h1]
    by_cases h2 : hist.length - 1 < 10
    · rw [if_pos h2]
      refine ⟨?_, ?_⟩
      · simp only [Option.isSome_none, Bool.false_eq_true, false_iff]
        rintro ⟨-, h, -⟩
        omega
      · intro a ha
        exact absurd ha (by simp)
    · rw [if_neg h2]
      by_cases h3 : (countLargeSwapChanges hist : ℚ) /
          ((hist.length - 1 : ℕ) : ℚ) > 3/20
      · rw [if_pos h3]
        refine ⟨?_, ?_⟩
        · simp only [Option.isSome_some, true_iff]
          exact ⟨by omega, by omega, h3⟩
        · intro a ha
          cases ha
          exact ⟨rfl, rfl, rfl, rfl, rfl, rfl, rfl⟩
      · rw [if_neg h3]
        refine ⟨?_, ?_⟩
        · simp only [Option.isSome_none, Bool.false_eq_true, false_iff]
          rintro ⟨-, -, hf⟩
          exact h3 hf
        · intro a ha
          exact absurd ha (by simp)

/-- Twenty samples whose swap value alternates between 0 and 200 MB:
every consecutive delta exceeds 100 MB. -/
def thrashHist : List (ℚ × ℚ) :=
  [(0, 0), (1, 209715200), (2, 0), (3, 209715200), (4, 0), (5, 209715200),
   (6, 0), (7, 209715200), (8, 0), (9, 209715200), (10, 0), (11, 209715200),
   (12, 0), (13, 209715200), (14, 0), (15, 209715200), (16, 0), (17, 209715200),
   (18, 0), (19, 209715200)]

/-- Witness for C4: on the alternating 20-sample history the detector
fires (19 of 19 deltas exceed 100 MB, ratio 1 > 0.15), and the theorem
forces severity "critical". -/
theorem detectSwapThrashing_spec_witness :
    (detectSwapThrashing 0 thrashHist).isSome = true ∧
    (∀ a, detectSwapThrashing 0 thrashHist = some a → a.severity = "critical") := by
  have hcount : countLargeSwapChanges thrashHist = 19 := by
    have hzip : ((thrashHist.map Prod.snd).zip (thrashHist.map Prod.snd).tail) =
        [((0 : ℚ), (209715200 : ℚ)), (209715200, 0), (0, 209715200), (209715200, 0),
         (0, 209715200), (209715200, 0), (0, 209715200), (209715200, 0),
         (0, 209715200), (209715200, 0), (0, 209715200), (209715200, 0),
         (0, 209715200), (209715200, 0), (0, 209715200), (209715200, 0),
         (0, 209715200), (209715200, 0), (0, 209715200)] := rfl
    have h1 : decide ((100 : ℚ) * 1024 * 1024 < pyAbs (209715200 - 0)) = true := by
      rw [decide_eq_true_eq]
      norm_num [pyAbs]
    have h2 : decide ((100 : ℚ) * 1024 * 1024 < pyAbs (0 - 209715200)) = true := by
      rw [decide_eq_true_eq]
      norm_num [pyAbs]
    simp only [countLargeSwapChanges, hzip, List.countP_cons, List.countP_nil, h1, h2,
      if_true]
  have hlen : thrashHist.length = 20 := rfl
  have hratio : (countLargeSwapChanges thrashHist : ℚ) /
      ((thrashHist.length - 1 : ℕ) : ℚ) > 3/20 := by
    rw [hcount, hlen]
    norm_num
  have h := detectSwapThrashing_spec 0 thrashHist
  refine ⟨h.1.mpr ⟨by decide, by decide, hratio⟩, ?_⟩
  intro a ha
  exact (h.2 a ha).2.1

/-! ## Root-cause reconstruction (root_cause.py) -/

/-- A pid → record index filled in list order: later records overwrite
earlier ones carrying the same pid, exactly as the Python dict fills do
(root_cause.py lines 128-130 and 181-183). -/
def procMapOf (ps : List Proc) : Option ℤ → Option Proc :=
  ps.foldl (fun (m : Option ℤ → Option Proc) (p : Proc) =>
    fun (k : Option ℤ) => if k = p.pid then some p else m k) (fun _ => none)

/-- A pid is absent from the index exactly when no record carries it. -/
theorem procMapOf_eq_none (ps : List Proc) (k : Option ℤ) :
    procMapOf ps k = none ↔ ∀ q ∈ ps, q.pid ≠ k := by
  have h : ∀ (l : List Proc) (m : Option ℤ → Option Proc),
      (l.foldl (fun (m2 : Option ℤ → Option Proc) (p : Proc) =>
        fun (k2 : Option ℤ) => if k2 = p.pid then some p else m2 k2) m) k = none ↔
        ((∀ q ∈ l, q.pid ≠ k) ∧ m k = none) := by
    intro l
    induction l with
    | nil => intro m; simp
    | cons p ps2 ih =>
      intro m
      simp only [List.foldl_cons]
      rw [ih]
      constructor
      · rintro ⟨hall, hm⟩
        by_cases hk : k = p.pid
        · rw [if_pos hk] at hm
          cases hm
        · rw [if_neg hk] at hm
          refine ⟨?_, hm⟩
          intro q hq
          rcases List.mem_cons.mp hq with rfl | h2
          · exact fun hc => hk hc.symm
          · exact hall q h2
      · rintro ⟨hall, hm⟩
        refine ⟨fun q hq => hall q (List.mem_cons_of_mem p hq), ?_⟩
        rw [if_neg (fun hk => (hall p (List.mem_cons_self p ps2)) hk.symm)]
        exact hm
  rw [procMapOf, h]
  simp

/-- Char-list prefix test, a helper for Python's `sub in s`. -/
def startsWithChars : List Char → List Char → Bool
  | _, [] => true
  | [], _ :: _ => false
  | a :: as, b :: bs => a = b && startsWithChars as bs

/-- Contiguous-substring test on char lists. -/
def hasSubChars (sub : List Char) : List Char → Bool
  | [] => decide (sub = [])
  | a :: as => startsWithChars (a :: as) sub || hasSubChars sub as

/-- Python's `sub in s` on strings. -/
def strContains (s sub : String) : Bool := hasSubChars sub.toList s.toList

/-- Sort-key selection from the anomaly type (root_cause.py lines
115-123): "cpu" types rank by cpu_percent, "memory"/"io"/"swap" types by
memory_rss, anything else by cpu_percent. -/
def sortKeyFor (anomalyType : String) : String :=
  if strContains anomalyType "cpu" then "cpu_percent"
  else if strContains anomalyType "memory" then "memory_rss"
  else if strContains anomalyType "io" || strContains anomalyType "swap" then "memory_rss"
  else "cpu_percent"

/-- `proc.get(sort_key)` for the keys the ranking can select. -/
def procGet (p : Proc) (key : String) : Option ℚ :=
  if key = "cpu_percent" then p.cpu_percent
  else if key = "memory_rss" then p.memory_rss
  else none

/-- Python `str(...)` of an optional pid, as f-strings interpolate it. -/
def pyIntStr : Option ℤ → String
  | some n => toString n
  | none => "None"

/-- One contribution record (root_cause.py lines 133-170): the sort-key
values default to 0 when absent or null (`.get(sort_key, 0) or 0`),
`is_new_process` marks pids absent from the previous snapshot's index,
and display text is built per sort key. -/
def mkContributor (fmt : Fmt) (sortKey : String) (pm : Option ℤ → Option Proc)
    (p : Proc) : Contributor :=
  let pid := p.pid
  let name := p.name.getD "unknown"
  let current_val := (procGet p sortKey).getD 0
  let prev_val :=
    match pm pid with
    | some pp => (procGet pp sortKey).getD 0
    | none => 0
  let delta := current_val - prev_val
  let is_new := decide (pm pid = none)
  let base : Contributor :=
    { pid := pid, name := name, current_value := current_val,
      previous_value := prev_val, delta := delta, is_new_process := is_new,
      metric := sortKey, display := none }
  if sortKey = "cpu_percent" then
    { base with display := some (name ++ " (PID " ++ pyIntStr pid ++ "): " ++
        fmt.float1 current_val ++ "% CPU" ++
        (if is_new then " (new process)"
         else if delta > 1 then " (+" ++ fmt.float1 delta ++ "%)" else "")) }
  else if sortKey = "memory_rss" then
    { base with display := some (name ++ " (PID " ++ pyIntStr pid ++ "): " ++
        fmt.bytesFmt current_val ++ " memory" ++
        (if is_new then " (new process)"
         else if delta > 1024 * 1024 then " (+" ++ fmt.bytesFmt delta ++ ")" else "")) }
  else base

/-- The unranked contribution records of the current snapshot's first 20
processes (the loop of root_cause.py line 133). -/
def contribRecords (fmt : Fmt) (anomalyType : String)
    (prevProcs curProcs : List Proc) : List Contributor :=
  (curProcs.take 20).map
    (mkContributor fmt (sortKeyFor anomalyType) (procMapOf prevProcs))

/-- The ranking order of line 173: descending absolute current value. -/
def contribDescLe (a b : Contributor) : Prop :=
  pyAbs b.current_value ≤ pyAbs a.current_value

instance : DecidableRel contribDescLe := fun a b =>
  inferInstanceAs (Decidable (pyAbs b.current_value ≤ pyAbs a.current_value))

instance : IsTotal Contributor contribDescLe :=
  ⟨fun a b => le_total (pyAbs b.current_value) (pyAbs a.current_value)⟩

instance : IsTrans Contributor contribDescLe :=
  ⟨fun _ _ _ h1 h2 => le_trans h2 h1⟩

/-- `RootCauseAnalyzer._analyze_process_contributions` (root_cause.py
lines 108-174) given the previous snapshot already fetched: build the
records of the first 20 processes, sort by descending |current_value| and
keep the top 10.  Python's `list.sort` is stable, and so is insertion
sort, so over the total preorder `contribDescLe` they compute the same
list. -/
def analyzeContributions (fmt : Fmt) (anomalyType : String)
    (prevProcs curProcs : List Proc) : List Contributor :=
  (List.insertionSort contribDescLe
    (contribRecords fmt anomalyType prevProcs curProcs)).take 10

/-- The while loop of `_build_process_tree` (root_cause.py lines 185-203),
fuel-indexed.  The break condition of line 200,
`current_pid == 0 or current_pid == current_pid`, is kept verbatim. -/
def buildTreeGo (pm : Option ℤ → Option Proc) :
    ℕ → Option ℤ → List ℤ → List TreeNode → List TreeNode
  | 0, _, _, tree => tree
  | fuel + 1, cur, visited, tree =>
    match cur with
    | none => tree
    | some p =>
      if p = 0 then tree
      else if p ∈ visited then tree
      else
        match pm (some p) with
        | none => tree
        | some proc =>
          let node : TreeNode :=
            { pid := p, name := proc.name.getD "unknown",
              cpu_percent := proc.cpu_percent.getD 0,
              memory_rss := proc.memory_rss.getD 0 }
          let tree2 := tree ++ [node]
          let cur2 := proc.ppid
          if cur2 = some 0 ∨ cur2 = cur2 then tree2
          else buildTreeGo pm fuel cur2 (p :: visited) tree2

/-- `RootCauseAnalyzer._build_process_tree` (root_cause.py lines 176-206):
index the snapshot by pid, walk, reverse to root-first. -/
def buildProcessTree (targetPid : Option ℤ) (ps : List Proc) : List TreeNode :=
  (buildTreeGo (procMapOf ps) (ps.length + 1) targetPid [] []).reverse

/-- One row of `db.get_system_metrics`: a loosely-typed column mapping. -/
structure MetricRow where
  fields : String → Option ℚ

/-- The two queries `RootCauseAnalyzer` issues, as fallible collaborators
(a raising call is an `.error`). -/
structure RcDb where
  getSystemMetrics : ℚ → ℚ → Except String (List MetricRow)
  getProcessMetricsAt : ℚ → Except String (List Proc)

/-- `RootCauseAnalyzer._reconstruct_timeline` (root_cause.py lines
76-106): a falsy metric name bails out; a raising query is caught there
and yields None; an empty result yields None; otherwise the (timestamp,
value) pairs whose value is present. -/
def reconstructTimeline (db : RcDb) (ts : ℚ) (metricName : Option String) :
    Option (List TimelinePoint) :=
  match metricName with
  | none => none
  | some mn =>
    if mn = "" then none
    else
      match db.getSystemMetrics (ts - 30) (ts + 30) with
      | Except.error _ => none
      | Except.ok rows =>
        if rows.isEmpty then none
        else
          some (rows.filterMap (fun (m : MetricRow) =>
            match m.fields mn with
            | some v => some { timestamp := m.fields "timestamp", value := v }
            | none => none))

/-- The I/O ranking order: descending total bytes (root_cause.py 239). -/
def ioDescLe (a b : IoProcEntry) : Prop := b.totalIoBytes ≤ a.totalIoBytes

instance : DecidableRel ioDescLe := fun a b =>
  inferInstanceAs (Decidable (b.totalIoBytes ≤ a.totalIoBytes))

/-- `RootCauseAnalyzer._analyze_io` (root_cause.py lines 208-274).
`total_io = (read_bytes or 0) + (write_bytes or 0)` operates on values the
filter established non-null, so it is the plain sum;
`.get("io_read_count", 0) or 0` becomes the 0-defaulted field. -/
def analyzeIoUsage (curProcs : Option (List Proc)) : Option IoReport :=
  match curProcs with
  | none => none
  | some ps =>
    if ps.isEmpty then none
    else
      let io_procs := ps.filterMap (fun (p : Proc) =>
        match p.io_read_bytes, p.io_write_bytes with
        | some rb, some wb =>
          let entry : IoProcEntry :=
            { pid := p.pid, name := p.name,
              io_read_bytes := rb, io_write_bytes := wb,
              io_read_count := p.io_read_count.getD 0,
              io_write_count := p.io_write_count.getD 0,
              totalIoBytes := rb + wb }
          some entry
        | _, _ => none)
      let rankedList := List.insertionSort ioDescLe io_procs
      let patterns := (rankedList.take 5).filterMap (fun (proc : IoProcEntry) =>
        let read_count := proc.io_read_count
        let read_bytes := proc.io_read_bytes
        if read_count > 0 then
          let avg_read_size := read_bytes / read_count
          let nm := (proc.name.getD "").toLower
          if avg_read_size < 32 * 1024 then
            some { pid := proc.pid, name := proc.name,
                   avg_read_size := avg_read_size,
                   classification := "small random reads (inefficient)",
                   likely_issue :=
                     if ["postgres", "mysql", "mongod", "mariadb"].any
                         (fun (d : String) => strContains nm d) then
                       some "Missing database index (table scan)"
                     else if ["chrome", "firefox", "edge"].any
                         (fun (b : String) => strContains nm b) then
                       some "Browser cache thrashing"
                     else some "Fragmented I/O pattern" }
          else if avg_read_size > 1024 * 1024 then
            some { pid := proc.pid, name := proc.name,
                   avg_read_size := avg_read_size,
                   classification := "large sequential reads (efficient)",
                   likely_issue := none }
          else
            some { pid := proc.pid, name := proc.name,
                   avg_read_size := avg_read_size,
                   classification := "mixed I/O pattern",
                   likely_issue := none }
        else none)
      some { top_io_processes := rankedList.take 10, patterns := patterns }

/-- Python `str(x)` of an optional string (None prints "None"). -/
def pyOptStr : Option String → String
  | some s => s
  | none => "None"

/-- `RootCauseAnalyzer._generate_summary` (root_cause.py lines 276-322):
pure text composition over the collected root cause. -/
def generateSummary (fmt : Fmt) (a : Anomaly) (rc : RootCause) : String :=
  let anomaly_type := a.anomaly_type
  let severity := a.severity
  let parts0 : List String := ["[" ++ severity.toUpper ++ "] " ++ a.description]
  let contributors := rc.top_contributors
  let parts1 : List String :=
    if contributors.isEmpty then parts0
    else
      parts0 ++ ["\nTop contributors:"] ++
      ((contributors.take 5).enum.map (fun (ic : ℕ × Contributor) =>
        "  " ++ toString (ic.1 + 1) ++ ". " ++ ic.2.display.getD "Unknown")) ++
      (if strContains anomaly_type "cpu" then
        ["\n  Top 3 processes account for " ++
          fmt.float1 (((contributors.take 3).map Contributor.current_value).sum) ++
          "% CPU"]
      else if strContains anomaly_type "memory" then
        ["\n  Top 3 processes use " ++
          fmt.bytesFmt (((contributors.take 3).map Contributor.current_value).sum) ++
          " memory"]
      else [])
  let parts2 : List String :=
    match rc.process_tree with
    | some tree =>
      if 1 < tree.length then
        parts1 ++ ["\nProcess chain: " ++ String.intercalate " → "
          (tree.map (fun (n : TreeNode) => n.name ++ "(" ++ toString n.pid ++ ")"))]
      else parts1
    | none => parts1
  let parts3 : List String :=
    match rc.io_analysis with
    | some info =>
      parts2 ++ info.patterns.filterMap (fun (p : IoPattern) =>
        match p.likely_issue with
        | some issue =>
          if issue = "" then none
          else some ("\nI/O issue: " ++ pyOptStr p.name ++ " - " ++ issue ++
            " (" ++ p.classification ++ ")")
        | none => none)
    | none => parts2
  String.intercalate "\n" parts3

/-- The freshly initialized root-cause skeleton (root_cause.py 29-35). -/
def emptyRootCause : RootCause :=
  { timeline := none, top_contributors := [], process_tree := none,
    io_analysis := none, summary := "" }

/-- The root cause after step 1 of `analyze`: the timeline filled in. -/
def rcTimelinePart (db : RcDb) (a : Anomaly) : RootCause :=
  { emptyRootCause with
    timeline := reconstructTimeline db a.timestamp a.metric_name }

/-- Steps 2-3 of `analyze` (root_cause.py lines 46-58): the only fallible
region of the try body — `db.get_process_metrics_at` (line 127) may raise
before any further field is written; everything after it is pure. -/
def contribStep (fmt : Fmt) (db : RcDb) (a : Anomaly) (ps : List Proc)
    (rc : RootCause) : Except String RootCause := do
  let prev ← db.getProcessMetricsAt (a.timestamp - 30)
  let contributors := analyzeContributions fmt a.anomaly_type prev ps
  let rc2 := { rc with top_contributors := contributors }
  match contributors with
  | [] => pure rc2
  | c :: _ =>
    match c.pid with
    | some tp =>
      if tp ≠ 0 then
        pure { rc2 with process_tree := some (buildProcessTree (some tp) ps) }
      else pure rc2
    | none => pure rc2

/-- The try body through step 3: steps 2-3 run only when the snapshot is
truthy (present and non-empty), as at root_cause.py line 47. -/
def rcStepTwo (fmt : Fmt) (db : RcDb) (a : Anomaly)
    (curProcs : Option (List Proc)) : Except String RootCause :=
  match curProcs with
  | some ps =>
    if ps.isEmpty then pure (rcTimelinePart db a)
    else contribStep fmt db a ps (rcTimelinePart db a)
  | none => pure (rcTimelinePart db a)

/-- `RootCauseAnalyzer.analyze` (root_cause.py lines 24-74): the catch-all
at line 69 turns the only possible raise into a failure summary on the
root cause as mutated so far (the timeline is already set); the success
path adds the I/O analysis for io_bottleneck/swap_thrashing anomalies and
the generated summary.  Total: `analyze` never raises outward. -/
def rcAnalyze (fmt : Fmt) (db : RcDb) (a : Anomaly)
    (curProcs : Option (List Proc)) : Anomaly :=
  match rcStepTwo fmt db a curProcs with
  | Except.error e =>
    { a with root_cause := some { rcTimelinePart db a with
        summary := "Root cause analysis failed: " ++ e } }
  | Except.ok rc2 =>
    let rc3 :=
      if a.anomaly_type = "io_bottleneck" ∨ a.anomaly_type = "swap_thrashing" then
        { rc2 with io_analysis := analyzeIoUsage curProcs }
      else rc2
    { a with root_cause := some { rc3 with summary := generateSummary fmt a rc3 } }

/-- The loop of `_build_process_tree` appends at most one node to its
accumulator, whatever the snapshot: the recursive branch sits under the
tautological break condition of root_cause.py line 200. -/
theorem buildTreeGo_length (pm : Option ℤ → Option Proc) (fuel : ℕ)
    (cur : Option ℤ) (visited : List ℤ) (tree : List TreeNode) :
    (buildTreeGo pm fuel cur visited tree).length ≤ tree.length + 1 := by
  cases fuel with
  | zero => simp [buildTreeGo]
  | succ n =>
    cases cur with
    | none => simp [buildTreeGo]
    | some p =>
      simp only [buildTreeGo]
      by_cases h0 : p = 0
      · rw [if_pos h0]
        exact Nat.le_succ _
      · rw [if_neg h0]
        by_cases hv : p ∈ visited
        · rw [if_pos hv]
          exact Nat.le_succ _
        · rw [if_neg hv]
          cases hpm : pm (some p) with
          | none =>
            simp only [hpm]
            exact Nat.le_succ _
          | some proc =>
            simp only [hpm]
            split_ifs with hbrk
            · simp
            · simp at hbrk

/-- The parent process of the C5 failing input, present in the snapshot. -/
def procParent : Proc :=
  { pid := some 1, ppid := some 0, name := some "parent",
    cpu_percent := some 1, memory_rss := some 100,
    io_read_bytes := none, io_write_bytes := none,
    io_read_count := none, io_write_count := none }

/-- The child process: its ppid names `procParent`. -/
def procChild : Proc :=
  { pid := some 2, ppid := some 1, name := some "child",
    cpu_percent := some 5, memory_rss := some 200,
    io_read_bytes := none, io_write_bytes := none,
    io_read_count := none, io_write_count := none }

/-- C5 (code bug): on a snapshot where the target's parent is present and
reachable through ppid, the produced tree contains only the target.  The
walk never follows the ppid link: the break condition at root_cause.py
line 200, `current_pid == 0 or current_pid == current_pid`, is a
tautology and fires after the first appended node, so the visited-set
cycle guard and the docstring's "traces up to init/root" are dead. -/
theorem buildProcessTree_stops_after_first_node :
    buildProcessTree (some 2) [procChild, procParent] =
      [{ pid := 2, name := "child", cpu_percent := 5, memory_rss := 200 }] ∧
    procChild.ppid = some 1 ∧ procParent.pid = some 1 ∧
    (buildProcessTree (some 2) [procChild, procParent]).map TreeNode.pid = [2] :=
  ⟨rfl, rfl, rfl, rfl⟩

/-- The metric row the C6 database returns: a timestamp and a
memory_percent value. -/
def rowC6 : MetricRow :=
  { fields := fun (k : String) =>
      if k = "timestamp" then some 100
      else if k = "memory_percent" then some 95 else none }

/-- A database whose metric query succeeds but whose process-history
query raises. -/
def dbBad : RcDb :=
  { getSystemMetrics := fun _ _ => Except.ok [rowC6],
    getProcessMetricsAt := fun _ => Except.error "db down" }

/-- The anomaly under root-cause analysis in the C6 scenario. -/
def anomalyC6 : Anomaly :=
  { timestamp := 100, anomaly_type := "memory_pressure", severity := "high",
    metric_name := some "memory_percent", metric_value := 95,
    baseline_mean := 50, baseline_stddev := 5, z_score := 9,
    description := "memory high", root_cause := none }

/-- C6 counterexample: when the process-history query raises after the
timeline was already reconstructed, the returned RootCause carries the
failure summary *and a non-empty timeline* — the other fields are not all
left at their zero/empty values as the claim states. -/
theorem rcAnalyze_counterexample :
    ((rcAnalyze fmt0 dbBad anomalyC6 (some [procChild])).root_cause.map
        (fun rc => (rc.summary, rc.timeline, rc.top_contributors, rc.process_tree))) =
      some ("Root cause analysis failed: db down",
        some [{ timestamp := some 100, value := 95 }], ([] : List Contributor),
        (none : Option (List TreeNode))) ∧
    some [({ timestamp := some 100, value := 95 } : TimelinePoint)] ≠
      (none : Option (List TimelinePoint)) :=
  ⟨rfl, by simp⟩

/-- C6 (amended): `analyze` never raises outward and always returns the
same anomaly with a RootCause attached.  On an internal failure the
summary states the failure and the fields not yet computed
(top_contributors, process_tree, io_analysis) are at their zero/empty
values, while the already-computed timeline keeps its value; on success
the summary is the generated text over the completed fields. -/
theorem rcAnalyze_amended (fmt : Fmt) (db : RcDb) (a : Anomaly)
    (ps : Option (List Proc)) :
    ∃ rc, rcAnalyze fmt db a ps = { a with root_cause := some rc } ∧
      (∀ e, rcStepTwo fmt db a ps = Except.error e →
        rc.summary = "Root cause analysis failed: " ++ e ∧
        rc.timeline = reconstructTimeline db a.timestamp a.metric_name ∧
        rc.top_contributors = [] ∧ rc.process_tree = none ∧
        rc.io_analysis = none) ∧
      (∀ rc2, rcStepTwo fmt db a ps = Except.ok rc2 →
        rc =
          (let rc3 :=
            if a.anomaly_type = "io_bottleneck" ∨ a.anomaly_type = "swap_thrashing"
            then { rc2 with io_analysis := analyzeIoUsage ps } else rc2
           { rc3 with summary := generateSummary fmt a rc3 })) := by
  cases hstep : rcStepTwo fmt db a ps with
  | error e =>
    refine ⟨{ rcTimelinePart db a with
        summary := "Root cause analysis failed: " ++ e }, ?_, ?_, ?_⟩
    · simp only [rcAnalyze, hstep]
    · intro e2 he2
      injection he2 with h3
      subst h3
      exact ⟨rfl, rfl, rfl, rfl, rfl⟩
    · intro rc2 h2
      exact Except.noConfusion h2
  | ok rc2 =>
    refine ⟨(let rc3 :=
        if a.anomaly_type = "io_bottleneck" ∨ a.anomaly_type = "swap_thrashing"
        then { rc2 with io_analysis := analyzeIoUsage ps } else rc2
       { rc3 with summary := generateSummary fmt a rc3 }), ?_, ?_, ?_⟩
    · simp only [rcAnalyze, hstep]
    · intro e he
      exact Except.noConfusion he
    · intro rc2b h2
      injection h2 with h3
      subst h3
      rfl

/-- Witness for C6's amended statement, at the concrete raising
database: the failure summary indeed surfaces. -/
theorem rcAnalyze_amended_witness :
    ((rcAnalyze fmt0 dbBad anomalyC6 (some [procChild])).root_cause.map
        RootCause.summary) = some "Root cause analysis failed: db down" := by
  obtain ⟨rc, heq, herr, -⟩ :=
    rcAnalyze_amended fmt0 dbBad anomalyC6 (some [procChild])
  obtain ⟨hsum, -⟩ := herr "db down" rfl
  rw [heq]
  simp [hsum]

/-- The contributor record keeps the process's pid in every branch. -/
theorem mkContributor_pid (fmt : Fmt) (sortKey : String)
    (pm : Option ℤ → Option Proc) (p : Proc) :
    (mkContributor fmt sortKey pm p).pid = p.pid := by
  simp only [mkContributor]
  split_ifs <;> rfl

/-- The current value is the 0-defaulted sort-key field. -/
theorem mkContributor_current (fmt : Fmt) (sortKey : String)
    (pm : Option ℤ → Option Proc) (p : Proc) :
    (mkContributor fmt sortKey pm p).current_value = (procGet p sortKey).getD 0 := by
  simp only [mkContributor]
  split_ifs <;> rfl

/-- The previous value is the 0-defaulted field of the indexed previous
record, 0 when the pid is absent. -/
theorem mkContributor_prev (fmt : Fmt) (sortKey : String)
    (pm : Option ℤ → Option Proc) (p : Proc) :
    (mkContributor fmt sortKey pm p).previous_value =
      (match pm p.pid with
       | some pp => (procGet pp sortKey).getD 0
       | none => 0) := by
  simp only [mkContributor]
  split_ifs <;> rfl

/-- The delta is current minus previous. -/
theorem mkContributor_delta (fmt : Fmt) (sortKey : String)
    (pm : Option ℤ → Option Proc) (p : Proc) :
    (mkContributor fmt sortKey pm p).delta =
      (mkContributor fmt sortKey pm p).current_value -
        (mkContributor fmt sortKey pm p).previous_value := by
  simp only [mkContributor]
  split_ifs <;> rfl

/-- The new-process flag tests absence from the previous index. -/
theorem mkContributor_isNew (fmt : Fmt) (sortKey : String)
    (pm : Option ℤ → Option Proc) (p : Proc) :
    (mkContributor fmt sortKey pm p).is_new_process = decide (pm p.pid = none) := by
  simp only [mkContributor]
  split_ifs <;> rfl

/-- C8: contribution ranking considers only the first 20 processes of the
current snapshot; each record's delta is current minus previous with
previous_value 0 and is_new_process true exactly when the pid is absent
from the snapshot of 30 seconds earlier; the result is sorted by
|current_value| descending and is the top-10 prefix of that ranking. -/
theorem analyzeContributions_spec (fmt : Fmt) (anomalyType : String)
    (prevProcs curProcs : List Proc)
    (recs : List Contributor)
    (hrecs : recs = contribRecords fmt anomalyType prevProcs curProcs)
    (out : List Contributor)
    (hout : out = analyzeContributions fmt anomalyType prevProcs curProcs) :
    out.length ≤ 10 ∧
    out.Pairwise (fun a b => |b.current_value| ≤ |a.current_value|) ∧
    (∃ l, recs.Perm l ∧
      l.Pairwise (fun a b => |b.current_value| ≤ |a.current_value|) ∧
      out = l.take 10) ∧
    (∀ c ∈ out, ∃ p ∈ curProcs.take 20,
      c = mkContributor fmt (sortKeyFor anomalyType) (procMapOf prevProcs) p ∧
      c.pid = p.pid ∧
      c.current_value = (procGet p (sortKeyFor anomalyType)).getD 0 ∧
      c.delta = c.current_value - c.previous_value ∧
      (c.is_new_process = true ↔ ∀ q ∈ prevProcs, q.pid ≠ p.pid) ∧
      ((∀ q ∈ prevProcs, q.pid ≠ p.pid) → c.previous_value = 0)) := by
  subst hrecs hout
  have hpair :
      (List.insertionSort contribDescLe
        (contribRecords fmt anomalyType prevProcs curProcs)).Pairwise
        (fun a b => |b.current_value| ≤ |a.current_value|) := by
    refine (List.sorted_insertionSort contribDescLe _).imp ?_
    intro a b hab
    simpa [contribDescLe, pyAbs_eq_abs] using hab
  refine ⟨?_, ?_, ?_, ?_⟩
  · exact List.length_take_le 10 _
  · exact hpair.sublist (List.take_sublist 10 _)
  · exact ⟨List.insertionSort contribDescLe
        (contribRecords fmt anomalyType prevProcs curProcs),
      (List.perm_insertionSort contribDescLe _).symm, hpair, rfl⟩
  · intro c hc
    have hc2 : c ∈ List.insertionSort contribDescLe
        (contribRecords fmt anomalyType prevProcs curProcs) :=
      List.take_subset 10 _ hc
    have hc3 : c ∈ contribRecords fmt anomalyType prevProcs curProcs :=
      (List.perm_insertionSort contribDescLe _).subset hc2
    simp only [contribRecords, List.mem_map] at hc3
    obtain ⟨p, hp, hcp⟩ := hc3
    refine ⟨p, hp, hcp.symm, ?_, ?_, ?_, ?_, ?_⟩
    · rw [← hcp, mkContributor_pid]
    · rw [← hcp, mkContributor_current]
    · rw [← hcp, mkContributor_delta]
    · rw [← hcp, mkContributor_isNew]
      rw [decide_eq_true_eq]
      exact procMapOf_eq_none prevProcs p.pid
    · intro habs
      rw [← hcp, mkContributor_prev,
        (procMapOf_eq_none prevProcs p.pid).mpr habs]

/-- The previous snapshot of the C8 witness: one process, pid 1. -/
def prevW : List Proc :=
  [{ pid := some 1, ppid := some 0, name := some "init",
     cpu_percent := some 2, memory_rss := some 10,
     io_read_bytes := none, io_write_bytes := none,
     io_read_count := none, io_write_count := none }]

/-- A process absent from `prevW`: pid 77. -/
def procNewW : Proc :=
  { pid := some 77, ppid := some 1, name := some "burst",
    cpu_percent := some 50, memory_rss := some 999,
    io_read_bytes := none, io_write_bytes := none,
    io_read_count := none, io_write_count := none }

/-- Witness for C8: the record of a pid missing from the earlier snapshot
is flagged new with previous_value 0, and at most 10 records come back. -/
theorem analyzeContributions_spec_witness :
    (mkContributor fmt0 (sortKeyFor "cpu_spike") (procMapOf prevW)
        procNewW).is_new_process = true ∧
    (mkContributor fmt0 (sortKeyFor "cpu_spike") (procMapOf prevW)
        procNewW).previous_value = 0 ∧
    (analyzeContributions fmt0 "cpu_spike" prevW [procNewW]).length ≤ 10 := by
  have h := analyzeContributions_spec fmt0 "cpu_spike" prevW [procNewW] _ rfl _ rfl
  have hmem : mkContributor fmt0 (sortKeyFor "cpu_spike") (procMapOf prevW)
        procNewW ∈ analyzeContributions fmt0 "cpu_spike" prevW [procNewW] := by
    have hef : analyzeContributions fmt0 "cpu_spike" prevW [procNewW] =
        [mkContributor fmt0 (sortKeyFor "cpu_spike") (procMapOf prevW) procNewW] := rfl
    rw [hef]
    exact List.mem_singleton.mpr rfl
  obtain ⟨p, hp, hcp, -, -, -, hnew, hprev⟩ := h.2.2.2 _ hmem
  have hpw : p = procNewW := by simpa using hp
  subst hpw
  refine ⟨hnew.mpr ?_, hprev ?_, h.1⟩
  · intro q hq
    simp only [prevW, List.mem_singleton] at hq
    subst hq
    simp [procNewW]
  · intro q hq
    simp only [prevW, List.mem_singleton] at hq
    subst hq
    simp [procNewW]

/-- C10 (implicit): a current or previous record whose sort-key field is
missing or null is treated as value 0 — the process is still included and
ranked rather than skipped, and the function is total (no error). -/
theorem contribRecords_null_fields (fmt : Fmt) (anomalyType : String)
    (prevProcs curProcs : List Proc) (sortKey : String)
    (hkey : sortKey = sortKeyFor anomalyType)
    (pm : Option ℤ → Option Proc) (hpm : pm = procMapOf prevProcs) :
    (contribRecords fmt anomalyType prevProcs curProcs).length =
      min 20 curProcs.length ∧
    (∀ p ∈ curProcs.take 20,
      mkContributor fmt sortKey pm p ∈
        List.insertionSort contribDescLe
          (contribRecords fmt anomalyType prevProcs curProcs) ∧
      (procGet p sortKey = none →
        (mkContributor fmt sortKey pm p).current_value = 0 ∧
        (mkContributor fmt sortKey pm p).delta =
          0 - (mkContributor fmt sortKey pm p).previous_value) ∧
      (∀ pp, pm p.pid = some pp → procGet pp sortKey = none →
        (mkContributor fmt sortKey pm p).previous_value = 0)) := by
  subst hkey hpm
  constructor
  · simp [contribRecords]
  · intro p hp
    refine ⟨?_, ?_, ?_⟩
    · rw [(List.perm_insertionSort contribDescLe _).mem_iff]
      exact List.mem_map_of_mem _ hp
    · intro hnone
      have hcv : (mkContributor fmt (sortKeyFor anomalyType)
          (procMapOf prevProcs) p).current_value = 0 := by
        rw [mkContributor_current, hnone]
        rfl
      refine ⟨hcv, ?_⟩
      rw [mkContributor_delta, hcv]
    · intro pp hpp hppnone
      rw [mkContributor_prev, hpp]
      simp only
      rw [hppnone]
      rfl

/-- A process whose cpu_percent field is null, for the C10 witness. -/
def procNullCpu : Proc :=
  { pid := some 9, ppid := some 1, name := some "ghost",
    cpu_percent := none, memory_rss := some 5,
    io_read_bytes := none, io_write_bytes := none,
    io_read_count := none, io_write_count := none }

/-- Witness for C10: the null-cpu process is still turned into a ranked
record with current_value 0. -/
theorem contribRecords_null_fields_witness :
    (contribRecords fmt0 "cpu_spike" [] [procNullCpu]).length = 1 ∧
    (mkContributor fmt0 (sortKeyFor "cpu_spike") (procMapOf [])
        procNullCpu).current_value = 0 := by
  have h := contribRecords_null_fields fmt0 "cpu_spike" [] [procNullCpu] _ rfl _ rfl
  refine ⟨by simpa using h.1, ?_⟩
  obtain ⟨-, hfacts, -⟩ := h.2 procNullCpu (by simp)
  exact (hfacts rfl).1

/-- Witness for C1 at the spec's own example: mean 50, std_dev 10,
value 85 gives z = 3.5 and severity "critical", and an anomaly is
produced (default cutoffs). -/
theorem checkZscore_spec_witness :
    (checkZscore fmt0 defaultSeverityLevels 0 "cpu_percent" 85
        ⟨50, 10, 0, 100, 10⟩ "weekday_morning").isSome = true ∧
    classifySeverity defaultSeverityLevels
        |((85 : ℚ) - 50) / 10| = "critical" := by
  have hcls : classifySeverity defaultSeverityLevels
      |((85 : ℚ) - 50) / 10| = "critical" := by
    have : |((85 : ℚ) - 50) / 10| = 7/2 := by
      rw [abs_of_nonneg] <;> norm_num
    rw [this]
    norm_num [classifySeverity, defaultSeverityLevels]
  have h := checkZscore_spec fmt0 defaultSeverityLevels 0 "cpu_percent" 85
      ⟨50, 10, 0, 100, 10⟩ "weekday_morning" (((85 : ℚ) - 50) / 10)
      (classifySeverity defaultSeverityLevels |((85 : ℚ) - 50) / 10|)
      (by norm_num) rfl rfl
      (by norm_num [defaultSeverityLevels]) (by norm_num [defaultSeverityLevels])
      (by norm_num [defaultSeverityLevels])
  refine ⟨?_, hcls⟩
  have := h.2.1.mpr (by rw [hcls]; simp)
  simpa using this

end SysPerf
